import Mathlib

/-!
Shallow embedding of the resilient API-tool layer of the ticketing agent
(`src/ai_agent/src/tool_factory.py`, `src/ai_agent/src/models.py`,
`src/ai_agent/src/config.py`), together with theorems checking the
specified behaviors of the four tool operations.

Modelling conventions:
* JSON values are the inductive `Json`; a response body is modelled by the
  pair `jsonBody : Option Json` (the result of attempting a JSON decode;
  `none` means the body does not decode) and `text : String` (the raw body).
* Python exceptions relevant to this layer are the inductive `Exn`
  (`httpx.RequestError`, `httpx.HTTPStatusError`, `json.JSONDecodeError`,
  `ValueError`, pydantic validation errors, and `tenacity.RetryError`).
* The backend is abstracted as a transport function from the attempt
  number (1-based) to the outcome of that attempt: either a completed
  `Response` (any status) or a network-level error.
* tenacity's `retry(retry = retry_if_exception_type(httpx.RequestError)
  | retry_if_result(...), stop = stop_after_attempt(N), reraise = True)`
  is modelled by `tenacityRun`, which also reports the number of attempts
  performed.
-/

/-- JSON values (Python dicts are association lists in insertion order). -/
inductive Json where
  | null : Json
  | bool : Bool → Json
  | int : Int → Json
  | str : String → Json
  | arr : List Json → Json
  | obj : List (String × Json) → Json
deriving Repr

/-- Python exceptions that can escape the tool layer. -/
inductive Exn where
  | requestError                      -- httpx.RequestError (network failure)
  | httpStatusError (status : Int)    -- httpx.HTTPStatusError from raise_for_status
  | jsonDecodeError                   -- json.JSONDecodeError from Response.json()
  | valueError (msg : String)         -- ValueError raised by the tool code
  | validationError (msg : String)    -- pydantic ValidationError
  | retryError (attempts : Nat)       -- tenacity.RetryError after exhausting attempts
deriving DecidableEq, Repr

/-- A completed HTTP exchange: status, decoded body (if the body is valid
JSON), raw text body, and the request URL echoed back. -/
structure Response where
  status : Int
  jsonBody : Option Json
  text : String
  url : String
deriving Repr

/-- Python truthiness of an optional string (`None` and `""` are falsy). -/
def pyTruthyOpt : Option String → Bool
  | none => false
  | some s => !s.isEmpty

/-- Python truthiness of a JSON value. -/
def pyTruthyJson : Json → Bool
  | .null => false
  | .bool b => b
  | .int n => n != 0
  | .str s => !s.isEmpty
  | .arr xs => !xs.isEmpty
  | .obj kvs => !kvs.isEmpty

-- ===================== config.py ==========================================

/-- `config.py`: fixed endpoint root. -/
def BASE_URL : String := "http://ticket-system:8000/api/tickets/"

/-- `config.py`: `MAX_ATTEMPTS = 6` (total attempt ceiling passed to
`stop_after_attempt`). -/
def MAX_ATTEMPTS : Nat := 6

-- ===================== tenacity retry model ================================

/-- The retry condition of `_retry_decorator`: retry when the attempt raised
an `httpx.RequestError`, or when it returned a value satisfying the
result predicate (`isinstance(r, httpx.Response) and
_should_retry_on_response(r)`, supplied here as `retryOnResult`). -/
def shouldRetryOutcome (retryOnResult : α → Bool) : Except Exn α → Bool
  | .error .requestError => true
  | .error _ => false
  | .ok v => retryOnResult v

/-- tenacity with `reraise=True` at budget exhaustion: re-raise the last
exception, or raise `RetryError` when the last attempt produced a
retry-triggering result. -/
def reraiseExhausted (attempts : Nat) : Except Exn α → Except Exn α
  | .error e => .error e
  | .ok _ => .error (.retryError attempts)

/-- Attempt loop of tenacity: `remaining` is the number of attempts still
allowed (including the current one), `k` the 1-based attempt number.
`attempt k` is the outcome of the k-th attempt of the wrapped function. -/
def tenacityGo (attempt : Nat → Except Exn α) (retryOnResult : α → Bool) :
    Nat → Nat → Except Exn α × Nat
  | 0, k =>
    let r := attempt k
    if shouldRetryOutcome retryOnResult r then (reraiseExhausted k r, k) else (r, k)
  | 1, k =>
    let r := attempt k
    if shouldRetryOutcome retryOnResult r then (reraiseExhausted k r, k) else (r, k)
  | n + 2, k =>
    let r := attempt k
    if shouldRetryOutcome retryOnResult r then
      tenacityGo attempt retryOnResult (n + 1) (k + 1)
    else (r, k)

/-- `_retry_decorator()` applied to a function: run up to `maxAttempts`
attempts, returning the final outcome together with the number of
attempts performed. -/
def tenacityRun (maxAttempts : Nat) (attempt : Nat → Except Exn α)
    (retryOnResult : α → Bool) : Except Exn α × Nat :=
  tenacityGo attempt retryOnResult maxAttempts 1

-- ===================== tool_factory.py helpers =============================

/-- `_should_retry_on_response`: 429 or any 5xx is retried. -/
def _should_retry_on_response (r : Response) : Bool :=
  r.status == 429 || (500 ≤ r.status && r.status < 600)

/-- `_safe_json`: parse the body as JSON; on decode failure return the
substitute object carrying the raw body truncated to 2000 characters. -/
def _safe_json (r : Response) : Json :=
  match r.jsonBody with
  | some j => j
  | none => Json.obj [("raw", .str (r.text.take 2000))]

/-- `httpx.Response.raise_for_status()` raises unless the status is 2xx. -/
def raisesForStatus (status : Int) : Bool :=
  status < 200 || 300 ≤ status

-- ===================== models.py ==========================================

/-- `models.py`: `RESOLUTION = Literal["OPEN", "RESOLVED", "CLOSED"]`.
Constructors are listed in the lexicographic order of their string forms
("CLOSED" < "OPEN" < "RESOLVED"), which is the order Python's `sorted`
uses on these strings. -/
inductive RESOLUTION where
  | CLOSED : RESOLUTION
  | OPEN : RESOLUTION
  | RESOLVED : RESOLUTION
deriving DecidableEq, Repr

/-- The string form of a `RESOLUTION` value. -/
def RESOLUTION.toStr : RESOLUTION → String
  | .CLOSED => "CLOSED"
  | .OPEN => "OPEN"
  | .RESOLVED => "RESOLVED"

/-- Position of a `RESOLUTION` value in the lexicographic order of the
three literal strings. -/
def RESOLUTION.rank : RESOLUTION → Nat
  | .CLOSED => 0
  | .OPEN => 1
  | .RESOLVED => 2

/-- Ordered insertion of a status into a list sorted by `rank`. -/
def insertStatus (a : RESOLUTION) : List RESOLUTION → List RESOLUTION
  | [] => [a]
  | b :: bs => if a.rank ≤ b.rank then a :: b :: bs else b :: insertStatus a bs

/-- Insertion sort of statuses by `rank` (= lexicographic order of their
string forms, i.e. Python's `sorted` on these strings). -/
def sortStatuses : List RESOLUTION → List RESOLUTION
  | [] => []
  | a :: as => insertStatus a (sortStatuses as)

/-- Python's `sorted(set(v))` on a list of statuses. -/
def sortedSet (v : List RESOLUTION) : List RESOLUTION :=
  sortStatuses v.dedup

/-- The canonical (sorted, duplicate-free) presentation of the set of
statuses occurring in a list, used to characterize `sortedSet`. -/
def canonStatuses (v : List RESOLUTION) : List RESOLUTION :=
  (if RESOLUTION.CLOSED ∈ v then [RESOLUTION.CLOSED] else []) ++
  (if RESOLUTION.OPEN ∈ v then [RESOLUTION.OPEN] else []) ++
  (if RESOLUTION.RESOLVED ∈ v then [RESOLUTION.RESOLVED] else [])

/-- `models.py` `TicketsFilterInput` (the `timeout` field only parametrizes
the HTTP client and takes no part in the logic modelled here). -/
structure TicketsFilterInput where
  search : Option String
  id : Option (List Int)
  resolution_status : Option (List RESOLUTION)
  page : Option Int
  page_size : Option Int
  fetch_all : Bool

/-- The `dedup_status` field validator of `TicketsFilterInput`:
`sorted(set(v)) if v else v`. -/
def dedup_status : Option (List RESOLUTION) → Option (List RESOLUTION)
  | none => none
  | some v => if v.isEmpty then some v else some (sortedSet v)

/-- Pydantic construction of a `TicketsFilterInput`: the `dedup_status`
validator rewrites the `resolution_status` field. -/
def mkTicketsFilterInput (search : Option String) (id : Option (List Int))
    (resolution_status : Option (List RESOLUTION)) (page : Option Int)
    (page_size : Option Int) (fetch_all : Bool) : TicketsFilterInput :=
  { search := search, id := id,
    resolution_status := dedup_status resolution_status,
    page := page, page_size := page_size, fetch_all := fetch_all }

/-- `models.py` `CreateTicketInput` field constraints: `title` length in
[3, 200], `description` length in [1, 20000]. Pydantic raises a
`ValidationError` when violated. -/
def createTicketInputValid (title description : String) : Prop :=
  3 ≤ title.length ∧ title.length ≤ 200 ∧
    1 ≤ description.length ∧ description.length ≤ 20000

instance (title description : String) :
    Decidable (createTicketInputValid title description) := by
  unfold createTicketInputValid; infer_instance

-- ===================== JSON dict access ====================================

/-- Lookup of a key in a JSON object (Python `d[k]` / `d.get(k)`). -/
def jget (j : Json) (k : String) : Option Json :=
  match j with
  | .obj kvs => lookupKV k kvs
  | _ => none
where
  /-- First binding of `k` in an association list. -/
  lookupKV (k : String) : List (String × Json) → Option Json
    | [] => none
    | (k', v) :: rest => if k' = k then some v else lookupKV k rest

/-- Python `d.get(k)` with `None` (modelled as `Json.null`) or a default
when the key is missing. -/
def jgetD (j : Json) (k : String) (d : Json) : Json :=
  (jget j k).getD d

/-- Python `isinstance(data, dict)`. -/
def jIsObj : Json → Bool
  | .obj _ => true
  | _ => false

/-- Python `"results" in data` for a dict. -/
def jHasKey (j : Json) (k : String) : Bool :=
  (jget j k).isSome

/-- The elements of a JSON array (the pages handled by the pagination
walker carry their `results` as JSON arrays; on any other JSON value the
model yields `[]`). -/
def jArrD : Json → List Json
  | .arr xs => xs
  | _ => []

-- ===================== _build_params =======================================

/-- The dict entry written by `_build_params` for `search`
(`if inp.search:` — absent or empty contributes nothing). -/
def searchParams : Option String → List (String × Json)
  | none => []
  | some s => if s.isEmpty then [] else [("search", Json.str s)]

/-- The dict entry written by `_build_params` for `id` (`if inp.id:`;
a single id as `id`, several as comma-joined `id__in`). -/
def idParams : Option (List Int) → List (String × Json)
  | none => []
  | some [] => []
  | some [x] => [("id", Json.str (toString x))]
  | some l => [("id__in", Json.str (String.intercalate "," (l.map toString)))]

/-- The dict entry written by `_build_params` for `resolution_status`
(`if inp.resolution_status:`; one status as the plain field, several as
comma-joined `resolution_status__in`). -/
def statusParams : Option (List RESOLUTION) → List (String × Json)
  | none => []
  | some [] => []
  | some [s] => [("resolution_status", Json.str s.toStr)]
  | some l =>
    [("resolution_status__in", Json.str (String.intercalate "," (l.map RESOLUTION.toStr)))]

/-- The dict entry written by `_build_params` for `page`
(`if inp.page is not None:`). -/
def pageParams : Option Int → List (String × Json)
  | none => []
  | some p => [("page", Json.int p)]

/-- The dict entry written by `_build_params` for `page_size`
(`if inp.page_size is not None:`). -/
def pageSizeParams : Option Int → List (String × Json)
  | none => []
  | some p => [("page_size", Json.int p)]

/-- `_build_params`: serialize a `TicketsFilterInput` into query
parameters, in the dict-insertion order of the source (search, id,
resolution_status, page, page_size). -/
def _build_params (inp : TicketsFilterInput) : List (String × Json) :=
  searchParams inp.search ++ idParams inp.id ++ statusParams inp.resolution_status ++
    pageParams inp.page ++ pageSizeParams inp.page_size

/-- First binding of a key among the serialized query parameters. -/
def plookup (k : String) : List (String × Json) → Option Json
  | [] => none
  | (k', v) :: rest => if k' = k then some v else plookup k rest

-- ===================== get_tickets =========================================

/-- A value returned by one attempt of the `get_tickets` coroutine: either
the raw `httpx.Response` (returned so the decorator's `retry_if_result`
condition can fire on 5xx/429) or the final tool-friendly dict. -/
inductive GetRet where
  | resp : Response → GetRet
  | val : Json → GetRet

/-- The decorator's result predicate at `get_tickets`:
`isinstance(r, httpx.Response) and _should_retry_on_response(r)`. -/
def getRetryPred : GetRet → Bool
  | .resp r => _should_retry_on_response r
  | .val _ => false

/-- The success dict built by `get_tickets`:
`{"ok": True, "status": ..., "url": ..., "data": ...}`. -/
def getSuccessJson (resp : Response) (data : Json) : Json :=
  Json.obj [("ok", .bool true), ("status", .int resp.status),
            ("url", .str resp.url), ("data", data)]

/-- One attempt of the body of `get_tickets` (lines 200-233): issue the GET
(`transport`), hand retryable responses back to the decorator, raise for
other non-2xx statuses, parse the JSON body (re-raising a decode failure
as a `ValueError` naming the status), and build the result dict. -/
def get_tickets_attempt (transport : Nat → Except Exn Response) (n : Nat) :
    Except Exn GetRet :=
  match transport n with
  | .error e => .error e
  | .ok resp =>
    if _should_retry_on_response resp then .ok (.resp resp)
    else if raisesForStatus resp.status then .error (.httpStatusError resp.status)
    else
      match resp.jsonBody with
      | some data => .ok (.val (getSuccessJson resp data))
      | none =>
        .error (.valueError
          ("Endpoint returned non-JSON payload (status " ++ toString resp.status ++ ")."))

/-- The `get_tickets` tool: the attempt body wrapped by `_retry_decorator`.
Returns the outcome and the number of attempts performed. -/
def get_tickets (transport : Nat → Except Exn Response) : Except Exn GetRet × Nat :=
  tenacityRun MAX_ATTEMPTS (get_tickets_attempt transport) getRetryPred

-- ===================== _create_ticket ======================================

/-- One attempt of `_create_ticket` (lines 62-82): pydantic-validate the
inputs, POST the body, treat 2xx as success, treat 409 as success
returning the parsed body, and re-raise any other `raise_for_status`
error (which tenacity will not retry, since `httpx.HTTPStatusError` is
not an `httpx.RequestError`). -/
def create_ticket_attempt (transport : Nat → Except Exn Response)
    (title description : String) (n : Nat) : Except Exn Json :=
  if createTicketInputValid title description then
    match transport n with
    | .error e => .error e
    | .ok r =>
      if raisesForStatus r.status then
        if r.status = 409 then .ok (_safe_json r)
        else .error (.httpStatusError r.status)
      else .ok (_safe_json r)
  else .error (.validationError "CreateTicketInput")

/-- The `create_ticket` tool coroutine `_create_ticket`, wrapped by
`_retry_decorator`. Its return value is a dict, never an
`httpx.Response`, so the decorator's result predicate never fires. -/
def _create_ticket (transport : Nat → Except Exn Response)
    (title description : String) : Except Exn Json × Nat :=
  tenacityRun MAX_ATTEMPTS (create_ticket_attempt transport title description)
    (fun _ => false)

-- ===================== _get_json ===========================================

/-- One attempt of `_get_json` (lines 85-91): GET, `raise_for_status`
(raising `httpx.HTTPStatusError` on non-2xx, which tenacity will not
retry), then `resp.json()` (raising `json.JSONDecodeError` on a body
that does not decode). -/
def get_json_attempt (transport : Nat → Except Exn Response) (n : Nat) :
    Except Exn Json :=
  match transport n with
  | .error e => .error e
  | .ok resp =>
    if raisesForStatus resp.status then .error (.httpStatusError resp.status)
    else
      match resp.jsonBody with
      | some j => .ok j
      | none => .error .jsonDecodeError

/-- `_get_json` wrapped by `_retry_decorator`; the return value is parsed
JSON, never an `httpx.Response`, so the result predicate never fires. -/
def _get_json (transport : Nat → Except Exn Response) : Except Exn Json × Nat :=
  tenacityRun MAX_ATTEMPTS (get_json_attempt transport) (fun _ => false)

-- ===================== _patch and update_ticket ============================

/-- One attempt of `_patch` (lines 165-171): issue the PATCH with the JSON
payload and return the raw `httpx.Response` (so the decorator's result
predicate can fire on 5xx/429). The transport sees the payload sent. -/
def patch_attempt (transport : List (String × String) → Nat → Except Exn Response)
    (payload : List (String × String)) (n : Nat) : Except Exn Response :=
  transport payload n

/-- `_patch` wrapped by `_retry_decorator`; the returned value is an
`httpx.Response`, so retry triggers exactly on `_should_retry_on_response`. -/
def _patch (transport : List (String × String) → Nat → Except Exn Response)
    (payload : List (String × String)) : Except Exn Response × Nat :=
  tenacityRun MAX_ATTEMPTS (patch_attempt transport payload) _should_retry_on_response

/-- The PATCH body built by `update_ticket` (lines 288-294): each field is
included exactly when it `is not None` (so a provided empty string is
included). -/
def update_payload (title description resolution_status : Option String) :
    List (String × String) :=
  (match title with | some t => [("title", t)] | none => []) ++
  (match description with | some d => [("description", d)] | none => []) ++
  (match resolution_status with | some s => [("resolution_status", s)] | none => [])

/-- The message of the `ValueError` raised by `update_ticket` when no field
is provided. -/
def updateNoFieldMsg : String :=
  "Provide at least one of `title`, `description`, or `resolution_status` for PATCH."

/-- The `update_ticket` tool (lines 258-315): reject (by string truthiness)
when no field is set, raising before the body is built or any request is
made; otherwise PATCH through `_patch`, `raise_for_status` on 5xx, raise
`httpx.HTTPStatusError` with the server detail on 4xx, and return
`resp.json()`. The second component counts the HTTP attempts made. -/
def update_ticket (transport : List (String × String) → Nat → Except Exn Response)
    (title description resolution_status : Option String) : Except Exn Json × Nat :=
  if !(pyTruthyOpt title || pyTruthyOpt description || pyTruthyOpt resolution_status) then
    (.error (.valueError updateNoFieldMsg), 0)
  else
    let payload := update_payload title description resolution_status
    let rn := _patch transport payload
    match rn.1 with
    | .error e => (.error e, rn.2)
    | .ok resp =>
      if 500 ≤ resp.status ∧ resp.status < 600 then
        (.error (.httpStatusError resp.status), rn.2)
      else if 400 ≤ resp.status ∧ resp.status < 500 then
        (.error (.httpStatusError resp.status), rn.2)
      else
        match resp.jsonBody with
        | some j => (.ok j, rn.2)
        | none => (.error .jsonDecodeError, rn.2)

-- ===================== _list_tickets_impl ==================================

/-- The `results` array contributed by one fetched page:
`page.get("results", [])`. -/
def pageResults (page : Json) : List Json :=
  jArrD (jgetD page "results" (Json.arr []))

/-- The `while next_url:` loop of `_list_tickets_impl` (lines 151-154):
while the next link is truthy, fetch it (with empty query parameters),
append its `results` to the accumulator and advance to its `next`.
`fuel` bounds the number of iterations modelled; `none` means the loop
did not terminate within `fuel` steps. -/
def paginationWalk (g : Json → Except Exn Json) :
    Nat → Json → List Json → Option (Except Exn (List Json))
  | 0, nextUrl, acc =>
    if pyTruthyJson nextUrl then none else some (.ok acc)
  | fuel + 1, nextUrl, acc =>
    if pyTruthyJson nextUrl then
      match g nextUrl with
      | .error e => some (.error e)
      | .ok page => paginationWalk g fuel (jgetD page "next" Json.null) (acc ++ pageResults page)
    else some (.ok acc)

/-- The synthesized DRF-like page returned after aggregation (lines
156-161). -/
def aggregatedPage (acc : List Json) : Json :=
  Json.obj [("count", .int acc.length), ("next", Json.null),
            ("previous", Json.null), ("results", .arr acc)]

/-- The body of `_list_tickets_impl` (lines 116-162): construct the
validated `TicketsFilterInput`, build the query parameters, fetch the
first page through `_get_json` (abstracted as `g`, receiving the URL and
the query parameters), and when `fetch_all` is set and the first page is
a dict with a `results` key and a truthy `next`, follow the next links
aggregating results; otherwise return the data unchanged. -/
def list_tickets_body (g : Json → List (String × Json) → Except Exn Json)
    (fuel : Nat) (search : Option String) (id : Option (List Int))
    (resolution_status : Option (List RESOLUTION)) (page : Option Int)
    (page_size : Option Int) (fetch_all : Bool) : Option (Except Exn Json) :=
  let inp := mkTicketsFilterInput search id resolution_status page page_size fetch_all
  let params := _build_params inp
  match g (Json.str BASE_URL) params with
  | .error e => some (.error e)
  | .ok data =>
    if inp.fetch_all && jIsObj data && jHasKey data "results"
        && pyTruthyJson (jgetD data "next" Json.null) then
      match paginationWalk (fun u => g u []) fuel (jgetD data "next" Json.null)
          (jArrD (jgetD data "results" (Json.arr []))) with
      | none => none
      | some (.error e) => some (.error e)
      | some (.ok acc) => some (.ok (aggregatedPage acc))
    else some (.ok data)

/-- `_list_tickets_impl` composed with its own `_retry_decorator` and with
`_get_json` (itself retry-wrapped) over a transport giving the per-attempt
backend behavior of any single request. The body returns JSON (never an
`httpx.Response`), so the outer result predicate never fires, and only an
`httpx.RequestError` escaping the body would be retried. -/
def _list_tickets_impl (transport : Nat → Except Exn Response) (fuel : Nat)
    (search : Option String) (id : Option (List Int))
    (resolution_status : Option (List RESOLUTION)) (page : Option Int)
    (page_size : Option Int) (fetch_all : Bool) : Option (Except Exn Json × Nat) :=
  match list_tickets_body (fun _u _p => (_get_json transport).1) fuel
      search id resolution_status page page_size fetch_all with
  | none => none
  | some r => some (tenacityRun MAX_ATTEMPTS (fun _ => r) (fun _ => false))

/-- A finite chain of pages obtained by following nonempty string `next`
links from the URL `u` (through the same `_get_json`, with empty query
parameters) until a page whose `next` is JSON null is reached. -/
inductive NextChain (g : Json → Except Exn Json) : String → List Json → Prop where
  | last : ∀ (u : String) (page : Json), u ≠ "" →
      g (Json.str u) = .ok page → jgetD page "next" Json.null = Json.null →
      NextChain g u [page]
  | step : ∀ (u : String) (page : Json) (u2 : String) (rest : List Json), u ≠ "" →
      g (Json.str u) = .ok page → jgetD page "next" Json.null = Json.str u2 →
      u2 ≠ "" → NextChain g u2 rest → NextChain g u (page :: rest)

-- ===================== concrete fixtures ===================================

/-- A 503 response, as produced by the simulated-instability backend. -/
def resp503 : Response :=
  { status := 503, jsonBody := some (Json.obj []), text := "Service Unavailable",
    url := BASE_URL }

/-- A backend that answers every request (every attempt) with HTTP 503. -/
def always503 : Nat → Except Exn Response := fun _ => .ok resp503

/-- The always-503 backend as seen by `_patch` (payload-indexed). -/
def always503p : List (String × String) → Nat → Except Exn Response :=
  fun _ _ => .ok resp503

/-- A backend that answers with 201 and the created-ticket body. -/
def t201 : Nat → Except Exn Response := fun _ =>
  .ok { status := 201, jsonBody := some (Json.obj [("id", .int 1)]),
        text := "created", url := BASE_URL }

/-- A backend that answers with 200 and a body that is not valid JSON. -/
def t200raw : Nat → Except Exn Response := fun _ =>
  .ok { status := 200, jsonBody := none, text := "oops not json", url := BASE_URL }

/-- A backend that answers with 404 (not found). -/
def t404 : Nat → Except Exn Response := fun _ =>
  .ok { status := 404, jsonBody := some (Json.obj [("detail", .str "Not found.")]),
        text := "Not found.", url := BASE_URL }

/-- A backend that answers with 409 (idempotent duplicate) and the existing
ticket body. -/
def t409 : Nat → Except Exn Response := fun _ =>
  .ok { status := 409, jsonBody := some (Json.obj [("id", .int 7)]),
        text := "conflict", url := BASE_URL }

/-- The 201 backend as seen by `_patch` (payload-indexed), answering the
same response as `t201`. -/
def t201p : List (String × String) → Nat → Except Exn Response := fun _ _ =>
  .ok { status := 201, jsonBody := some (Json.obj [("id", .int 1)]),
        text := "created", url := BASE_URL }

/-- A backend answering 200 with the updated-ticket body, as seen by
`_patch` (payload-indexed). -/
def t200p : List (String × String) → Nat → Except Exn Response := fun _ _ =>
  .ok { status := 200, jsonBody := some (Json.obj [("id", .int 1)]),
        text := "updated", url := BASE_URL }

/-- A backend answering 200 with a non-JSON body, as seen by `_patch`. -/
def t200rawp : List (String × String) → Nat → Except Exn Response := fun _ _ =>
  .ok { status := 200, jsonBody := none, text := "oops not json", url := BASE_URL }

/-- Page 3 of the pagination fixture: final page, `next` is null. -/
def page3 : Json :=
  Json.obj [("count", .int 5), ("next", Json.null), ("previous", .str "P2"),
            ("results", .arr [.int 4, .int 5])]

/-- Page 2 of the pagination fixture: `next` points at P3. -/
def page2 : Json :=
  Json.obj [("count", .int 5), ("next", .str "P3"), ("previous", .str "P1"),
            ("results", .arr [.int 3])]

/-- Page 1 of the pagination fixture: `next` points at P2. -/
def page1 : Json :=
  Json.obj [("count", .int 5), ("next", .str "P2"), ("previous", Json.null),
            ("results", .arr [.int 1, .int 2])]

/-- A backend serving the three-page pagination fixture: the base URL
yields page 1, the links P2 and P3 yield pages 2 and 3. -/
def g3 : Json → List (String × Json) → Except Exn Json := fun u _ =>
  match u with
  | .str s => if s = "P2" then .ok page2 else if s = "P3" then .ok page3 else .ok page1
  | _ => .error .requestError

/-- The result shape claimed by the spec for every facade operation:
an object with keys `ok` (bool), `status` (int), `url` (string) and
`data` (any JSON). Written from the spec's words, to be compared with
what the operations actually return. -/
def specToolResultShape (j : Json) : Bool :=
  match jget j "ok", jget j "status", jget j "url", jget j "data" with
  | some (.bool _), some (.int _), some (.str _), some _ => true
  | _, _, _, _ => false

-- ===================== theorems ============================================

theorem tenacityGo_stop (attempt : Nat → Except Exn α) (pred : α → Bool)
    (rem k : Nat) (h : shouldRetryOutcome pred (attempt k) = false) :
    tenacityGo attempt pred rem k = (attempt k, k) := by
  match rem with
  | 0 => simp [tenacityGo, h]
  | 1 => simp [tenacityGo, h]
  | n + 2 => simp [tenacityGo, h]

/-- C1: claimed: against a backend that always answers 503, each of the
four tool operations performs exactly `MAX_ATTEMPTS = 6` attempts and
then reports a terminal failure carrying the attempt count, none
bypassing the retry policy. The code violates this: `get_tickets` and
`update_ticket` (via `_patch`) do retry six times and surface
`tenacity.RetryError` carrying the attempt count, but `_create_ticket`
and `_get_json` (hence `get_filtered_tickets`) call `raise_for_status`,
whose `httpx.HTTPStatusError` is not an `httpx.RequestError` and so is
never retried: they stop after exactly one attempt. -/
theorem retry_policy_not_uniform_on_503 :
    get_tickets always503 = (.error (.retryError 6), 6) ∧
    update_ticket always503p (some "t") none none = (.error (.retryError 6), 6) ∧
    _create_ticket always503 "Valid title" "details" =
      (.error (.httpStatusError 503), 1) ∧
    _get_json always503 = (.error (.httpStatusError 503), 1) ∧
    _list_tickets_impl always503 9 none none none (some 1) none false =
      some (.error (.httpStatusError 503), 1) :=
  ⟨rfl, rfl, rfl, rfl, rfl⟩

/-- C3: every create-ticket call that receives an HTTP 409 response treats
it as a success and returns the parsed response body after exactly one
attempt: the 409 is never retried and never surfaces as a terminal HTTP
error. -/
theorem create_ticket_409_success (transport : Nat → Except Exn Response)
    (r : Response) (title description : String)
    (h1 : transport 1 = .ok r) (h409 : r.status = 409)
    (hv : createTicketInputValid title description) :
    _create_ticket transport title description = (.ok (_safe_json r), 1) := by
  have hatt : create_ticket_attempt transport title description 1 = .ok (_safe_json r) := by
    simp [create_ticket_attempt, hv, h1, h409, raisesForStatus]
  unfold _create_ticket tenacityRun
  rw [tenacityGo_stop _ _ _ _ (by rw [hatt]; rfl), hatt]

/-- Witness for C3 at the concrete 409 backend. -/
theorem create_ticket_409_success_witness :
    _create_ticket t409 "Valid title" "details" = (.ok (Json.obj [("id", .int 7)]), 1) := by
  have h := create_ticket_409_success t409
    { status := 409, jsonBody := some (Json.obj [("id", .int 7)]),
      text := "conflict", url := BASE_URL }
    "Valid title" "details" rfl rfl (by decide)
  simpa [_safe_json] using h

/-- C4: every fetch (`get_tickets`) call that receives an HTTP 404 makes
exactly one attempt, performs no retry, and yields the terminal
`httpx.HTTPStatusError` carrying 404 rather than a success value. -/
theorem get_tickets_404_single_attempt (transport : Nat → Except Exn Response)
    (r : Response) (h1 : transport 1 = .ok r) (h404 : r.status = 404) :
    get_tickets transport = (.error (.httpStatusError 404), 1) := by
  have hatt : get_tickets_attempt transport 1 = .error (.httpStatusError 404) := by
    simp [get_tickets_attempt, h1, h404, _should_retry_on_response, raisesForStatus]
  unfold get_tickets tenacityRun
  rw [tenacityGo_stop _ _ _ _ (by rw [hatt]; rfl), hatt]

/-- Witness for C4 at the concrete 404 backend. -/
theorem get_tickets_404_single_attempt_witness :
    get_tickets t404 = (.error (.httpStatusError 404), 1) :=
  get_tickets_404_single_attempt t404
    { status := 404, jsonBody := some (Json.obj [("detail", .str "Not found.")]),
      text := "Not found.", url := BASE_URL } rfl rfl

/-- C6: an update request with none of `title`, `description`,
`resolution_status` set is rejected with a client-side `ValueError`
before any request body is built or any network call is made (zero HTTP
attempts, for every backend); and a create request whose title has fewer
than 3 characters ("ab") is rejected by pydantic validation locally, on
the first attempt, without consulting the backend (the outcome is the
same for every backend and every description). -/
theorem local_validation_rejects
    (tp : List (String × String) → Nat → Except Exn Response)
    (transport : Nat → Except Exn Response) (description : String) :
    update_ticket tp none none none = (.error (.valueError updateNoFieldMsg), 0) ∧
    _create_ticket transport "ab" description =
      (.error (.validationError "CreateTicketInput"), 1) := by
  constructor
  · rfl
  · have hatt : create_ticket_attempt transport "ab" description 1 =
        .error (.validationError "CreateTicketInput") := by
      unfold create_ticket_attempt
      rw [if_neg (fun h => absurd h.1 (by decide))]
    unfold _create_ticket tenacityRun
    rw [tenacityGo_stop _ _ _ _ (by rw [hatt]; rfl), hatt]

/-- C2 counterexample: the claim that every facade operation returns a
value of the shape with keys ok/status/url/data fails at `create_ticket`:
on a 201 with body containing only `id`, the operation returns that body
itself, which does not have the claimed shape. -/
theorem create_ticket_result_shape_cex :
    _create_ticket t201 "Valid title" "details" =
      (.ok (Json.obj [("id", .int 1)]), 1) ∧
    specToolResultShape (Json.obj [("id", .int 1)]) = false :=
  ⟨rfl, rfl⟩

/-- C2 amended: on a first-attempt 2xx response with JSON body `j`,
`get_tickets` alone wraps the result in the ok/status/url/data shape;
`create_ticket`, `update_ticket` and `get_filtered_tickets` return the
parsed body `j` directly (each after exactly one attempt). -/
theorem tool_success_result_shapes
    (transport : Nat → Except Exn Response) (r : Response) (j : Json)
    (tp : List (String × String) → Nat → Except Exn Response)
    (title description : String)
    (h1 : transport 1 = .ok r) (hlo : 200 ≤ r.status) (hhi : r.status < 300)
    (hb : r.jsonBody = some j)
    (hp : tp (update_payload (some "t") none none) 1 = .ok r)
    (hv : createTicketInputValid title description) :
    get_tickets transport = (.ok (.val (getSuccessJson r j)), 1) ∧
    specToolResultShape (getSuccessJson r j) = true ∧
    _create_ticket transport title description = (.ok j, 1) ∧
    update_ticket tp (some "t") none none = (.ok j, 1) ∧
    _list_tickets_impl transport 0 none none none (some 1) none false =
      some (.ok j, 1) := by
  have hnr : _should_retry_on_response r = false := by
    simp [_should_retry_on_response]
    omega
  have hrf : raisesForStatus r.status = false := by
    simp [raisesForStatus]
    omega
  have hget : get_tickets transport = (.ok (.val (getSuccessJson r j)), 1) := by
    have hatt : get_tickets_attempt transport 1 = .ok (.val (getSuccessJson r j)) := by
      simp [get_tickets_attempt, h1, hnr, hrf, hb]
    unfold get_tickets tenacityRun
    rw [tenacityGo_stop _ _ _ _ (by rw [hatt]; rfl), hatt]
  have hcreate : _create_ticket transport title description = (.ok j, 1) := by
    have hatt : create_ticket_attempt transport title description 1 = .ok j := by
      simp [create_ticket_attempt, hv, h1, hrf, _safe_json, hb]
    unfold _create_ticket tenacityRun
    rw [tenacityGo_stop _ _ _ _ (by rw [hatt]; rfl), hatt]
  have hgj : _get_json transport = (.ok j, 1) := by
    have hatt : get_json_attempt transport 1 = .ok j := by
      simp [get_json_attempt, h1, hrf, hb]
    unfold _get_json tenacityRun
    rw [tenacityGo_stop _ _ _ _ (by rw [hatt]; rfl), hatt]
  have hupd : update_ticket tp (some "t") none none = (.ok j, 1) := by
    have hpatch : _patch tp (update_payload (some "t") none none) = (.ok r, 1) := by
      have hatt : patch_attempt tp (update_payload (some "t") none none) 1 = .ok r := by
        simp [patch_attempt, hp]
      unfold _patch tenacityRun
      rw [tenacityGo_stop _ _ _ _ (by rw [hatt]; simp [shouldRetryOutcome, hnr]), hatt]
    have h5 : ¬(500 ≤ r.status ∧ r.status < 600) := by omega
    have h4 : ¬(400 ≤ r.status ∧ r.status < 500) := by omega
    unfold update_ticket
    rw [if_neg (by decide)]
    simp [hpatch, h5, h4, hb]
  have hlist : _list_tickets_impl transport 0 none none none (some 1) none false =
      some (.ok j, 1) := by
    have hbody : list_tickets_body (fun _u _p => (_get_json transport).1) 0
        none none none (some 1) none false = some (.ok j) := by
      unfold list_tickets_body
      rw [hgj]
      simp [mkTicketsFilterInput]
    unfold _list_tickets_impl
    rw [hbody]
    rfl
  exact ⟨hget, by simp [specToolResultShape, getSuccessJson, jget, jget.lookupKV],
         hcreate, hupd, hlist⟩

/-- Witness for C2's amended theorem at the concrete 201 backend. -/
theorem tool_success_result_shapes_witness :
    get_tickets t201 =
      (.ok (.val (getSuccessJson
        { status := 201, jsonBody := some (Json.obj [("id", .int 1)]),
          text := "created", url := BASE_URL } (Json.obj [("id", .int 1)]))), 1) ∧
    specToolResultShape (getSuccessJson
        { status := 201, jsonBody := some (Json.obj [("id", .int 1)]),
          text := "created", url := BASE_URL } (Json.obj [("id", .int 1)])) = true ∧
    _create_ticket t201 "Valid title" "details" = (.ok (Json.obj [("id", .int 1)]), 1) ∧
    update_ticket t201p (some "t") none none = (.ok (Json.obj [("id", .int 1)]), 1) ∧
    _list_tickets_impl t201 0 none none none (some 1) none false =
      some (.ok (Json.obj [("id", .int 1)]), 1) :=
  tool_success_result_shapes t201
    { status := 201, jsonBody := some (Json.obj [("id", .int 1)]),
      text := "created", url := BASE_URL }
    (Json.obj [("id", .int 1)]) t201p "Valid title" "details"
    rfl (by decide) (by decide) rfl rfl (by decide)

/-- C7 counterexample: the claim that a 2xx response with an undecodable
body always produces a terminal malformed-response error fails at
`create_ticket`: on a 200 whose body does not decode, `_safe_json`
substitutes the object with the truncated raw body and the operation
returns it as a successful result. -/
theorem create_ticket_nonjson_cex :
    _create_ticket t200raw "Valid title" "details" =
      (.ok (Json.obj [("raw", .str (String.take "oops not json" 2000))]), 1) :=
  rfl

/-- C7 amended: on a first-attempt 2xx response whose body fails to decode
as JSON, `get_tickets` raises a terminal `ValueError` naming the status
(without the raw body), `_get_json` (`get_filtered_tickets`) and
`update_ticket` propagate the JSON decode error, while `create_ticket`
returns the substitute object carrying the raw body truncated to 2000
characters as a successful result. -/
theorem nonjson_2xx_behavior
    (transport : Nat → Except Exn Response) (r : Response)
    (tp : List (String × String) → Nat → Except Exn Response)
    (title description : String)
    (h1 : transport 1 = .ok r) (hlo : 200 ≤ r.status) (hhi : r.status < 300)
    (hb : r.jsonBody = none)
    (hp : tp (update_payload (some "t") none none) 1 = .ok r)
    (hv : createTicketInputValid title description) :
    get_tickets transport =
      (.error (.valueError
        ("Endpoint returned non-JSON payload (status " ++ toString r.status ++ ").")), 1) ∧
    _get_json transport = (.error .jsonDecodeError, 1) ∧
    update_ticket tp (some "t") none none = (.error .jsonDecodeError, 1) ∧
    _create_ticket transport title description =
      (.ok (Json.obj [("raw", .str (r.text.take 2000))]), 1) := by
  have hnr : _should_retry_on_response r = false := by
    simp [_should_retry_on_response]
    omega
  have hrf : raisesForStatus r.status = false := by
    simp [raisesForStatus]
    omega
  have hget : get_tickets transport =
      (.error (.valueError
        ("Endpoint returned non-JSON payload (status " ++ toString r.status ++ ").")), 1) := by
    have hatt : get_tickets_attempt transport 1 = .error (.valueError
        ("Endpoint returned non-JSON payload (status " ++ toString r.status ++ ").")) := by
      simp [get_tickets_attempt, h1, hnr, hrf, hb]
    unfold get_tickets tenacityRun
    rw [tenacityGo_stop _ _ _ _ (by rw [hatt]; rfl), hatt]
  have hgj : _get_json transport = (.error .jsonDecodeError, 1) := by
    have hatt : get_json_attempt transport 1 = .error .jsonDecodeError := by
      simp [get_json_attempt, h1, hrf, hb]
    unfold _get_json tenacityRun
    rw [tenacityGo_stop _ _ _ _ (by rw [hatt]; rfl), hatt]
  have hupd : update_ticket tp (some "t") none none = (.error .jsonDecodeError, 1) := by
    have hpatch : _patch tp (update_payload (some "t") none none) = (.ok r, 1) := by
      have hatt : patch_attempt tp (update_payload (some "t") none none) 1 = .ok r := by
        simp [patch_attempt, hp]
      unfold _patch tenacityRun
      rw [tenacityGo_stop _ _ _ _ (by rw [hatt]; simp [shouldRetryOutcome, hnr]), hatt]
    have h5 : ¬(500 ≤ r.status ∧ r.status < 600) := by omega
    have h4 : ¬(400 ≤ r.status ∧ r.status < 500) := by omega
    unfold update_ticket
    rw [if_neg (by decide)]
    simp [hpatch, h5, h4, hb]
  have hcreate : _create_ticket transport title description =
      (.ok (Json.obj [("raw", .str (r.text.take 2000))]), 1) := by
    have hatt : create_ticket_attempt transport title description 1 =
        .ok (Json.obj [("raw", .str (r.text.take 2000))]) := by
      simp [create_ticket_attempt, hv, h1, hrf, _safe_json, hb]
    unfold _create_ticket tenacityRun
    rw [tenacityGo_stop _ _ _ _ (by rw [hatt]; rfl), hatt]
  exact ⟨hget, hgj, hupd, hcreate⟩

/-- Witness for C7's amended theorem at the concrete non-JSON 200 backend. -/
theorem nonjson_2xx_behavior_witness :
    get_tickets t200raw =
      (.error (.valueError "Endpoint returned non-JSON payload (status 200)."), 1) ∧
    _get_json t200raw = (.error .jsonDecodeError, 1) ∧
    update_ticket t200rawp (some "t") none none = (.error .jsonDecodeError, 1) ∧
    _create_ticket t200raw "Valid title" "details" =
      (.ok (Json.obj [("raw", .str (String.take "oops not json" 2000))]), 1) := by
  have h := nonjson_2xx_behavior t200raw
    { status := 200, jsonBody := none, text := "oops not json", url := BASE_URL }
    t200rawp "Valid title" "details" rfl (by decide) (by decide) rfl rfl (by decide)
  simpa using h

theorem pyTruthyJson_str (u : String) (hu : u ≠ "") :
    pyTruthyJson (Json.str u) = true := by
  cases hb : u.isEmpty with
  | true => exact absurd ((String.isEmpty_iff u).mp hb) hu
  | false => simp [pyTruthyJson, hb]

theorem paginationWalk_falsy (g : Json → Except Exn Json) (fuel : Nat)
    (nextUrl : Json) (acc : List Json) (h : pyTruthyJson nextUrl = false) :
    paginationWalk g fuel nextUrl acc = some (.ok acc) := by
  cases fuel <;> simp [paginationWalk, h]

theorem paginationWalk_chain (g : Json → Except Exn Json) :
    ∀ (chain : List Json) (u : String) (acc : List Json) (fuel : Nat),
      NextChain g u chain → chain.length ≤ fuel →
      paginationWalk g fuel (Json.str u) acc =
        some (.ok (acc ++ (chain.map pageResults).flatten)) := by
  intro chain
  induction chain with
  | nil =>
    intro u acc fuel h _
    cases h
  | cons page rest ih =>
    intro u acc fuel h hfuel
    cases fuel with
    | zero => exact absurd hfuel (by simp)
    | succ f =>
      cases h with
      | last _ _ hu hg hnull =>
        simp only [paginationWalk, pyTruthyJson_str u hu, if_true, hg]
        rw [hnull, paginationWalk_falsy g f Json.null _ rfl]
        simp
      | step _ _ u2 _ hu hg hnext hu2 hrest =>
        simp only [paginationWalk, pyTruthyJson_str u hu, if_true, hg]
        rw [hnext, ih u2 (acc ++ pageResults page) f hrest (by simpa using hfuel)]
        simp

/-- C5: for a listing call with `fetch_all = true` whose first page is a
dict with a `results` array: if its `next` is a nonempty URL string from
which a chain of pages leads to a page with null `next`, the pagination
walker returns the single synthesized page whose `results` is the
concatenation of all pages' results in page order, whose `count` is the
length of that concatenation and whose `next`/`previous` are null; if
the first page's `next` is null, the page is returned unchanged. -/
theorem fetch_all_aggregates
    (g : Json → List (String × Json) → Except Exn Json) (fuel : Nat)
    (search : Option String) (id : Option (List Int))
    (rs : Option (List RESOLUTION)) (page : Option Int) (ps : Option Int)
    (firstPage : Json) (results : List Json)
    (hget : g (Json.str BASE_URL)
        (_build_params (mkTicketsFilterInput search id rs page ps true)) =
        .ok firstPage)
    (hobj : jIsObj firstPage = true)
    (hres : jget firstPage "results" = some (Json.arr results)) :
    (∀ (u : String) (chain : List Json),
       jgetD firstPage "next" Json.null = Json.str u → u ≠ "" →
       NextChain (fun v => g v []) u chain → chain.length ≤ fuel →
       list_tickets_body g fuel search id rs page ps true =
         some (.ok (aggregatedPage (results ++ (chain.map pageResults).flatten)))) ∧
    (jgetD firstPage "next" Json.null = Json.null →
       list_tickets_body g fuel search id rs page ps true = some (.ok firstPage)) := by
  constructor
  · intro u chain hnext hu hchain hfuel
    simp only [list_tickets_body]
    rw [hget]
    simp only [mkTicketsFilterInput, jHasKey, hres, hobj, hnext,
      pyTruthyJson_str u hu, Option.isSome_some, Bool.and_true, Bool.and_self,
      Bool.true_and, if_true]
    rw [show jgetD firstPage "results" (Json.arr []) = Json.arr results by
      simp [jgetD, hres]]
    rw [show jArrD (Json.arr results) = results from rfl]
    rw [paginationWalk_chain (fun v => g v []) chain u results fuel hchain hfuel]
  · intro hnull
    simp only [list_tickets_body]
    rw [hget]
    simp [hnull, pyTruthyJson]

/-- Witness for C5 at the three-page fixture: pages with results [1,2],
[3], [4,5] aggregate into one synthesized page with count 5 and null
next/previous; a first page with null next is returned unchanged. -/
theorem fetch_all_aggregates_witness :
    list_tickets_body g3 9 none none none (some 1) none true =
      some (.ok (Json.obj [("count", .int 5), ("next", Json.null),
        ("previous", Json.null),
        ("results", .arr [.int 1, .int 2, .int 3, .int 4, .int 5])])) ∧
    list_tickets_body (fun _u _p => .ok page3) 9 none none none (some 1) none true =
      some (.ok page3) := by
  constructor
  · have hchain : NextChain (fun v => g3 v []) "P2" [page2, page3] :=
      NextChain.step "P2" page2 "P3" [page3] (by decide) rfl rfl (by decide)
        (NextChain.last "P3" page3 (by decide) rfl rfl)
    have h := (fetch_all_aggregates g3 9 none none none (some 1) none page1
        [.int 1, .int 2] rfl rfl rfl).1 "P2" [page2, page3] rfl (by decide)
        hchain (by decide)
    rw [h]
    rfl
  · exact (fetch_all_aggregates (fun _u _p => .ok page3) 9 none none none (some 1)
      none page3 [.int 4, .int 5] rfl rfl rfl).2 rfl

theorem plookup_skip_search (k : String) (s : Option String)
    (ys : List (String × Json)) (hk : k ≠ "search") :
    plookup k (searchParams s ++ ys) = plookup k ys := by
  rcases s with _ | s
  · rfl
  · by_cases hs : s.isEmpty <;> simp [searchParams, hs, plookup, Ne.symm hk]

theorem plookup_skip_id (k : String) (id : Option (List Int))
    (ys : List (String × Json)) (h1 : k ≠ "id") (h2 : k ≠ "id__in") :
    plookup k (idParams id ++ ys) = plookup k ys := by
  rcases id with _ | (_ | ⟨x, _ | ⟨y, l⟩⟩) <;>
    simp [idParams, plookup, Ne.symm h1, Ne.symm h2]

theorem plookup_skip_status (k : String) (rs : Option (List RESOLUTION))
    (ys : List (String × Json)) (h1 : k ≠ "resolution_status")
    (h2 : k ≠ "resolution_status__in") :
    plookup k (statusParams rs ++ ys) = plookup k ys := by
  rcases rs with _ | (_ | ⟨x, _ | ⟨y, l⟩⟩) <;>
    simp [statusParams, plookup, Ne.symm h1, Ne.symm h2]

theorem plookup_skip_page (k : String) (p : Option Int)
    (ys : List (String × Json)) (hk : k ≠ "page") :
    plookup k (pageParams p ++ ys) = plookup k ys := by
  rcases p with _ | p <;> simp [pageParams, plookup, Ne.symm hk]

theorem plookup_pageSizeParams_none (k : String) (p : Option Int)
    (hk : k ≠ "page_size") : plookup k (pageSizeParams p) = none := by
  rcases p with _ | p <;> simp [pageSizeParams, plookup, Ne.symm hk]

/-- C8: the filter builder serializes a singleton ids list `[n]` as the
query parameter `id = n` (and emits no `id__in`), and a multi-element
ids list as `id__in` joined with commas in the given order, applying no
deduplication (and emits no plain `id`), whatever the other filter
fields are. -/
theorem id_filter_serialization (search : Option String)
    (rs : Option (List RESOLUTION)) (page ps : Option Int) (fa : Bool) :
    (∀ n : Int,
       plookup "id"
         (_build_params (mkTicketsFilterInput search (some [n]) rs page ps fa)) =
         some (Json.str (toString n)) ∧
       plookup "id__in"
         (_build_params (mkTicketsFilterInput search (some [n]) rs page ps fa)) =
         none) ∧
    (∀ (n m : Int) (l : List Int),
       plookup "id__in"
         (_build_params (mkTicketsFilterInput search (some (n :: m :: l)) rs page ps fa)) =
         some (Json.str (String.intercalate "," ((n :: m :: l).map toString))) ∧
       plookup "id"
         (_build_params (mkTicketsFilterInput search (some (n :: m :: l)) rs page ps fa)) =
         none) := by
  constructor
  · intro n
    constructor
    · simp only [_build_params, mkTicketsFilterInput, List.append_assoc]
      rw [plookup_skip_search _ _ _ (by decide)]
      simp [idParams, plookup]
    · simp only [_build_params, mkTicketsFilterInput, List.append_assoc]
      rw [plookup_skip_search _ _ _ (by decide)]
      simp only [idParams, List.cons_append, List.nil_append]
      rw [show plookup "id__in" (("id", Json.str (toString n)) ::
          (statusParams (dedup_status rs) ++ (pageParams page ++ pageSizeParams ps))) =
          plookup "id__in" (statusParams (dedup_status rs) ++ (pageParams page ++
            pageSizeParams ps)) by simp [plookup]]
      rw [plookup_skip_status _ _ _ (by decide) (by decide),
        plookup_skip_page _ _ _ (by decide), plookup_pageSizeParams_none _ _ (by decide)]
  · intro n m l
    constructor
    · simp only [_build_params, mkTicketsFilterInput, List.append_assoc]
      rw [plookup_skip_search _ _ _ (by decide)]
      simp [idParams, plookup]
    · simp only [_build_params, mkTicketsFilterInput, List.append_assoc]
      rw [plookup_skip_search _ _ _ (by decide)]
      simp only [idParams, List.cons_append, List.nil_append]
      rw [show plookup "id" (("id__in", Json.str (String.intercalate ","
            ((n :: m :: l).map toString))) ::
          (statusParams (dedup_status rs) ++ (pageParams page ++ pageSizeParams ps))) =
          plookup "id" (statusParams (dedup_status rs) ++ (pageParams page ++
            pageSizeParams ps)) by simp [plookup]]
      rw [plookup_skip_status _ _ _ (by decide) (by decide),
        plookup_skip_page _ _ _ (by decide), plookup_pageSizeParams_none _ _ (by decide)]

theorem sortedSet_eq_canon (v : List RESOLUTION) : sortedSet v = canonStatuses v := by
  induction v with
  | nil => rfl
  | cons a rest ih =>
    by_cases ha : a ∈ rest
    · have hmem : ∀ x : RESOLUTION, (x ∈ a :: rest) ↔ x ∈ rest := by
        intro x
        constructor
        · intro h
          rcases List.mem_cons.mp h with h | h
          · exact h ▸ ha
          · exact h
        · exact fun h => List.mem_cons_of_mem _ h
      rw [sortedSet, List.dedup_cons_of_mem ha]
      have hc : sortStatuses rest.dedup = canonStatuses rest := ih
      rw [hc]
      simp [canonStatuses, hmem]
    · rw [sortedSet, List.dedup_cons_of_not_mem ha, sortStatuses]
      have hc : sortStatuses rest.dedup = canonStatuses rest := ih
      rw [hc]
      cases a <;>
        by_cases h1 : RESOLUTION.CLOSED ∈ rest <;>
        by_cases h2 : RESOLUTION.OPEN ∈ rest <;>
        by_cases h3 : RESOLUTION.RESOLVED ∈ rest <;>
        simp_all [canonStatuses, insertStatus, RESOLUTION.rank, List.mem_cons]

theorem dedup_status_some (v : List RESOLUTION) :
    dedup_status (some v) = some (sortedSet v) := by
  rcases v with _ | ⟨a, rest⟩ <;> rfl

theorem sortedSet_sorted_nodup (v : List RESOLUTION) :
    List.Pairwise (fun a b => a.rank ≤ b.rank) (sortedSet v) ∧ (sortedSet v).Nodup := by
  rw [sortedSet_eq_canon]
  by_cases h1 : RESOLUTION.CLOSED ∈ v <;>
    by_cases h2 : RESOLUTION.OPEN ∈ v <;>
    by_cases h3 : RESOLUTION.RESOLVED ∈ v <;>
    simp [canonStatuses, h1, h2, h3, RESOLUTION.rank]

/-- C9: the stored `resolution_status` after pydantic construction is the
deduplicated, rank-sorted presentation of the given list; any two status
lists with the same membership serialize to identical query parameters;
a deduplicated cardinality of 1 serializes through the plain
`resolution_status` field and a cardinality above 1 through the
comma-joined `resolution_status__in` field. -/
theorem status_filter_dedup_deterministic (search : Option String)
    (id : Option (List Int)) (page ps : Option Int) (fa : Bool) :
    (∀ v : List RESOLUTION,
       (mkTicketsFilterInput search id (some v) page ps fa).resolution_status =
         some (sortedSet v) ∧
       List.Pairwise (fun a b => a.rank ≤ b.rank) (sortedSet v) ∧
       (sortedSet v).Nodup) ∧
    (∀ v1 v2 : List RESOLUTION, (∀ a, a ∈ v1 ↔ a ∈ v2) →
       _build_params (mkTicketsFilterInput search id (some v1) page ps fa) =
         _build_params (mkTicketsFilterInput search id (some v2) page ps fa)) ∧
    (∀ (v : List RESOLUTION) (s : RESOLUTION), sortedSet v = [s] →
       plookup "resolution_status"
         (_build_params (mkTicketsFilterInput search id (some v) page ps fa)) =
         some (Json.str s.toStr) ∧
       plookup "resolution_status__in"
         (_build_params (mkTicketsFilterInput search id (some v) page ps fa)) =
         none) ∧
    (∀ (v : List RESOLUTION) (s1 s2 : RESOLUTION) (rest : List RESOLUTION),
       sortedSet v = s1 :: s2 :: rest →
       plookup "resolution_status__in"
         (_build_params (mkTicketsFilterInput search id (some v) page ps fa)) =
         some (Json.str (String.intercalate ","
           ((s1 :: s2 :: rest).map RESOLUTION.toStr))) ∧
       plookup "resolution_status"
         (_build_params (mkTicketsFilterInput search id (some v) page ps fa)) =
         none) := by
  refine ⟨?_, ?_, ?_, ?_⟩
  · intro v
    exact ⟨by simp [mkTicketsFilterInput, dedup_status_some],
      (sortedSet_sorted_nodup v).1, (sortedSet_sorted_nodup v).2⟩
  · intro v1 v2 h
    have hss : sortedSet v1 = sortedSet v2 := by
      rw [sortedSet_eq_canon, sortedSet_eq_canon]
      simp [canonStatuses, h RESOLUTION.CLOSED, h RESOLUTION.OPEN, h RESOLUTION.RESOLVED]
    simp [_build_params, mkTicketsFilterInput, dedup_status_some, hss]
  · intro v s hv
    constructor
    · simp only [_build_params, mkTicketsFilterInput, List.append_assoc,
        dedup_status_some, hv]
      rw [plookup_skip_search _ _ _ (by decide),
        plookup_skip_id _ _ _ (by decide) (by decide)]
      simp [statusParams, plookup]
    · simp only [_build_params, mkTicketsFilterInput, List.append_assoc,
        dedup_status_some, hv]
      rw [plookup_skip_search _ _ _ (by decide),
        plookup_skip_id _ _ _ (by decide) (by decide)]
      simp only [statusParams, List.cons_append, List.nil_append]
      rw [show plookup "resolution_status__in" (("resolution_status",
            Json.str s.toStr) :: (pageParams page ++ pageSizeParams ps)) =
          plookup "resolution_status__in" (pageParams page ++ pageSizeParams ps) by
        simp [plookup]]
      rw [plookup_skip_page _ _ _ (by decide),
        plookup_pageSizeParams_none _ _ (by decide)]
  · intro v s1 s2 rest hv
    constructor
    · simp only [_build_params, mkTicketsFilterInput, List.append_assoc,
        dedup_status_some, hv]
      rw [plookup_skip_search _ _ _ (by decide),
        plookup_skip_id _ _ _ (by decide) (by decide)]
      simp [statusParams, plookup]
    · simp only [_build_params, mkTicketsFilterInput, List.append_assoc,
        dedup_status_some, hv]
      rw [plookup_skip_search _ _ _ (by decide),
        plookup_skip_id _ _ _ (by decide) (by decide)]
      simp only [statusParams, List.cons_append, List.nil_append]
      rw [show plookup "resolution_status" (("resolution_status__in",
            Json.str (String.intercalate ","
              ((s1 :: s2 :: rest).map RESOLUTION.toStr))) ::
            (pageParams page ++ pageSizeParams ps)) =
          plookup "resolution_status" (pageParams page ++ pageSizeParams ps) by
        simp [plookup]]
      rw [plookup_skip_page _ _ _ (by decide),
        plookup_pageSizeParams_none _ _ (by decide)]

/-- Witness for C9 at concrete status lists: [RESOLVED, OPEN, RESOLVED] is
stored as [OPEN, RESOLVED]; two lists with the same member set serialize
identically; [OPEN, OPEN] serializes through the plain field and
[RESOLVED, OPEN, RESOLVED] through the comma-joined field. -/
theorem status_filter_dedup_deterministic_witness :
    (mkTicketsFilterInput none none (some [RESOLUTION.RESOLVED, RESOLUTION.OPEN,
        RESOLUTION.RESOLVED]) (some 1) none false).resolution_status =
      some [RESOLUTION.OPEN, RESOLUTION.RESOLVED] ∧
    _build_params (mkTicketsFilterInput none none (some [RESOLUTION.RESOLVED,
        RESOLUTION.OPEN]) (some 1) none false) =
      _build_params (mkTicketsFilterInput none none (some [RESOLUTION.OPEN,
        RESOLUTION.RESOLVED, RESOLUTION.OPEN]) (some 1) none false) ∧
    plookup "resolution_status" (_build_params (mkTicketsFilterInput none none
        (some [RESOLUTION.OPEN, RESOLUTION.OPEN]) (some 1) none false)) =
      some (Json.str "OPEN") ∧
    plookup "resolution_status__in" (_build_params (mkTicketsFilterInput none none
        (some [RESOLUTION.RESOLVED, RESOLUTION.OPEN, RESOLUTION.RESOLVED])
        (some 1) none false)) = some (Json.str "OPEN,RESOLVED") := by
  refine ⟨?_, ?_, ?_, ?_⟩
  · have h := ((status_filter_dedup_deterministic none none (some 1) none false).1
      [RESOLUTION.RESOLVED, RESOLUTION.OPEN, RESOLUTION.RESOLVED]).1
    rw [h]
    rfl
  · exact (status_filter_dedup_deterministic none none (some 1) none false).2.1
      _ _ (by intro a; cases a <;> decide)
  · exact (((status_filter_dedup_deterministic none none (some 1) none false).2.2.1)
      [RESOLUTION.OPEN, RESOLUTION.OPEN] RESOLUTION.OPEN (by decide)).1
  · have h := (((status_filter_dedup_deterministic none none (some 1) none false).2.2.2)
      [RESOLUTION.RESOLVED, RESOLUTION.OPEN, RESOLUTION.RESOLVED] RESOLUTION.OPEN
      RESOLUTION.RESOLVED [] (by decide)).1
    rw [h]
    rfl

theorem tenacityGo_attempts_ge (attempt : Nat → Except Exn α) (pred : α → Bool) :
    ∀ (rem k : Nat), k ≤ (tenacityGo attempt pred rem k).2
  | 0, k => by
    simp only [tenacityGo]
    split <;> simp
  | 1, k => by
    simp only [tenacityGo]
    split <;> simp
  | n + 2, k => by
    simp only [tenacityGo]
    split
    · exact Nat.le_of_succ_le (tenacityGo_attempts_ge attempt pred (n + 1) (k + 1))
    · simp

theorem update_ticket_attempts (tp : List (String × String) → Nat → Except Exn Response)
    (t d r : Option String)
    (h : (pyTruthyOpt t || pyTruthyOpt d || pyTruthyOpt r) = true) :
    (update_ticket tp t d r).2 = (_patch tp (update_payload t d r)).2 := by
  unfold update_ticket
  rw [h]
  simp only [Bool.not_true, Bool.false_eq_true, if_false]
  split <;> try rfl
  split <;> try rfl
  split <;> try rfl
  split <;> rfl

/-- C10: `update_ticket` checks field presence by string truthiness but
builds the body by an is-not-None check: when `title`, `description` and
`resolution_status` are each None or the empty string, the call is
rejected as though no field were set (zero HTTP attempts, for every
backend); when at least one is a nonempty string, the PATCH body is
built and sent (at least one attempt), and any field that is the empty
string (not None) is included in that body with its empty-string value. -/
theorem update_truthiness_vs_none_check
    (tp : List (String × String) → Nat → Except Exn Response) :
    (∀ t d r : Option String,
       (t = none ∨ t = some "") → (d = none ∨ d = some "") → (r = none ∨ r = some "") →
       update_ticket tp t d r = (.error (.valueError updateNoFieldMsg), 0)) ∧
    (∀ t d r : Option String,
       (pyTruthyOpt t || pyTruthyOpt d || pyTruthyOpt r) = true →
       1 ≤ (update_ticket tp t d r).2 ∧
       (t = some "" → ("title", "") ∈ update_payload t d r) ∧
       (d = some "" → ("description", "") ∈ update_payload t d r) ∧
       (r = some "" → ("resolution_status", "") ∈ update_payload t d r)) := by
  constructor
  · intro t d r ht hd hr
    rcases ht with rfl | rfl <;> rcases hd with rfl | rfl <;>
      rcases hr with rfl | rfl <;> rfl
  · intro t d r h
    refine ⟨?_, ?_, ?_, ?_⟩
    · rw [update_ticket_attempts tp t d r h]
      exact tenacityGo_attempts_ge _ _ MAX_ATTEMPTS 1
    · rintro rfl
      simp [update_payload]
    · rintro rfl
      simp [update_payload]
    · rintro rfl
      simp [update_payload]

/-- Witness for C10: all-empty-string fields are rejected with zero
attempts; with a nonempty title, an empty-string description is sent in
the body. -/
theorem update_truthiness_vs_none_check_witness :
    update_ticket t200p none (some "") none =
      (.error (.valueError updateNoFieldMsg), 0) ∧
    1 ≤ (update_ticket t200p (some "x") (some "") none).2 ∧
    ("description", "") ∈ update_payload (some "x") (some "") none := by
  have h := update_truthiness_vs_none_check t200p
  refine ⟨h.1 none (some "") none (Or.inl rfl) (Or.inr rfl) (Or.inl rfl), ?_, ?_⟩
  · exact (h.2 (some "x") (some "") none (by decide)).1
  · exact (h.2 (some "x") (some "") none (by decide)).2.2.1 rfl
